import Mathlib

/-
Verification of the Assessment Attempt Session Engine
(client page in apps/curriculum, file src/unnamed/part_000).

The page is a React component; its state (useState hooks) is modelled as an
explicit record `SessionState`, and each handler becomes a pure function from
state (plus the external collaborator result it consumes) to state plus its
observable effects (the payload sent to saveAnswers, the toast notice shown).
JS objects keyed by question id are modelled as association lists whose keys
are unique by construction (a JS object cannot hold a duplicate key);
`storeSet` is the spread-update `{ ...answers, [questionId]: answer }`.
Timestamps are integer milliseconds.
-/

namespace AssessmentSession

/-- Server-side choice object, as in the selectedChoices array returned by
startOrResumeAttempt (lines 90-94 of the page). -/
structure SelectedChoice where
  id : String
  choiceText : String
  choiceImageUrl : Option String
  isCorrect : Option Bool
deriving DecidableEq, Repr

/-- Frontend answer shape (type AssessmentAnswer of useAssessmentLink):
optional selected choice ids and optional free text. `none` models a field
that is undefined or null in JS. -/
structure AssessmentAnswer where
  assessmentEntryId : String
  selectedChoiceIds : Option (List String)
  textAnswer : Option String
deriving DecidableEq, Repr

/-- One prior answer in the server shape consumed by handleStartAssessment
(the inline annotation at lines 90-94). -/
structure ServerAnswer where
  assessmentEntryId : String
  selectedChoices : Option (List SelectedChoice)
  textAnswer : Option String
deriving DecidableEq, Repr

structure Question where
  id : String
  questionType : String
  question : String
  weight : Nat
deriving DecidableEq, Repr

structure Section where
  id : String
  sectionNumber : Nat
  title : String
  description : Option String
  questions : List Question
deriving DecidableEq, Repr

structure Assessment where
  name : String
  description : Option String
  timed : Bool
  duration : Nat
  sections : List Section
deriving DecidableEq, Repr

/-- The attempt returned by startOrResumeAttempt. -/
structure AssessmentAttempt where
  attemptStatus : String
  startedAt : Option Int
  assessmentAnswers : Option (List ServerAnswer)
deriving DecidableEq, Repr

/-- The answers record: a JS object from question id to AssessmentAnswer,
modelled as an association list with unique keys. -/
abbrev AnswerStore := List (String × AssessmentAnswer)

/-- JS spread update `{ ...answers, [questionId]: answer }`: if the key is
present its value is replaced in place, otherwise the entry is appended. -/
def storeSet (s : AnswerStore) (k : String) (v : AssessmentAnswer) : AnswerStore :=
  if s.any (fun p => p.1 = k) then
    s.map (fun p => if p.1 = k then (k, v) else p)
  else
    s ++ [(k, v)]

/-- Property read `answers[questionId]`. -/
def storeGet (s : AnswerStore) (k : String) : Option AssessmentAnswer :=
  (s.find? (fun p => p.1 = k)).map Prod.snd

/-- totalQuestions (line 40): sections.reduce((acc, s) => acc + s.questions.length, 0). -/
def totalQuestions (a : Assessment) : Nat :=
  a.sections.foldl (fun acc s => acc + s.questions.length) 0

/-- answeredQuestions (line 41): Object.keys(answers).length. The keys of a
JS object are unique, so this is the length of the association list. -/
def answeredQuestions (answers : AnswerStore) : Nat :=
  answers.length

/-- allQuestionsAnswered (line 43):
answeredQuestions === totalQuestions && totalQuestions > 0. -/
def allQuestionsAnswered (a : Assessment) (answers : AnswerStore) : Bool :=
  answeredQuestions answers == totalQuestions a && decide (totalQuestions a > 0)

/-- JS String.prototype.trim: strip leading and trailing whitespace. Written
over the character list so that it evaluates inside the kernel. -/
def jsTrim (s : String) : String :=
  ⟨(((s.data.dropWhile Char.isWhitespace).reverse).dropWhile Char.isWhitespace).reverse⟩

/-- The completeness filter of the auto-save path (lines 128-135): an answer
whose textAnswer is defined and non-null is valid iff the trimmed text is
nonempty; otherwise it is valid iff at least one choice id is selected. -/
def isValidAnswer (ans : AssessmentAnswer) : Bool :=
  match ans.textAnswer with
  | some t => decide ((jsTrim t).length > 0)
  | none =>
    match ans.selectedChoiceIds with
    | some ids => decide (ids.length > 0)
    | none => false

/-- Object.values(updatedAnswers).filter(isValidAnswer) (line 128). -/
def validAnswersOf (s : AnswerStore) : List AssessmentAnswer :=
  (s.map Prod.snd).filter isValidAnswer

/-- Completeness per the spec (section 4.2), stated from the spec words for
comparison with the implementation filter `isValidAnswer`: an answer carrying
free text is complete iff the trimmed text is nonempty; otherwise it is
complete iff the selected-choice set is nonempty. -/
def CompleteSpec (ans : AssessmentAnswer) : Prop :=
  match ans.textAnswer with
  | some t => jsTrim t ≠ ""
  | none => ans.selectedChoiceIds.getD [] ≠ []

/-- The page state relevant to the engine (the useState hooks at lines 20-26). -/
structure SessionState where
  answers : AnswerStore
  currentSectionIndex : Nat
  currentQuestionIndex : Nat
  isTimeUp : Bool
  timeRemaining : Option Nat
  isStarted : Bool
deriving DecidableEq, Repr

/-- The initial hook values (lines 20-26). -/
def initialState : SessionState :=
  { answers := []
    currentSectionIndex := 0
    currentQuestionIndex := 0
    isTimeUp := false
    timeRemaining := none
    isStarted := false }

/-- A toast shown to the user. -/
inductive Notice where
  | warning (msg : String)
  | errorNotice (msg : String)
deriving DecidableEq, Repr

/-- Result of the awaited saveAnswers collaborator call. -/
inductive SaveResult where
  | success
  | failure
deriving DecidableEq, Repr

/-- handleAnswerChange (lines 115-146). Returns the new state, the payload
sent to saveAnswers (`none` when no call was made), and the toast notice.
The store update (setAnswers, line 123) happens before the try block, and the
catch only logs, so the returned state does not depend on the save result. -/
def handleAnswerChange (questionId : String) (answer : AssessmentAnswer)
    (saveResult : SaveResult) (st : SessionState) :
    SessionState × Option (List AssessmentAnswer) × Option Notice :=
  if st.isTimeUp then
    (st, none, some (.warning "Time is up! You can no longer modify your answers."))
  else
    let updatedAnswers := storeSet st.answers questionId answer
    let validAnswers := validAnswersOf updatedAnswers
    let payload := if validAnswers.length > 0 then some validAnswers else none
    let _ := saveResult
    ({ st with answers := updatedAnswers }, payload, none)

/-- navigateToQuestion (lines 148-155): the indices are stored as given, with
no bounds check. -/
def navigateToQuestion (st : SessionState) (sectionIndex questionIndex : Nat) :
    SessionState × Option Notice :=
  if st.isTimeUp then
    (st, some (.warning "Time is up! Navigation is no longer available."))
  else
    ({ st with currentSectionIndex := sectionIndex,
               currentQuestionIndex := questionIndex }, none)

/-- handleNext (lines 157-166). `sections.get?` models
`assessment?.sections[currentSectionIndex]`; when it is undefined the guard
`!currentSection` returns early. Nat subtraction matches the JS comparisons:
for an empty section, qIdx < -1 and qIdx < 0 are both false. -/
def handleNext (a : Assessment) (st : SessionState) : SessionState :=
  match a.sections.get? st.currentSectionIndex with
  | none => st
  | some currentSection =>
    if st.isTimeUp then st
    else if st.currentQuestionIndex < currentSection.questions.length - 1 then
      { st with currentQuestionIndex := st.currentQuestionIndex + 1 }
    else if st.currentSectionIndex < a.sections.length - 1 then
      { st with currentSectionIndex := st.currentSectionIndex + 1,
                currentQuestionIndex := 0 }
    else st

/-- handlePrevious (lines 168-177). The JS expression
`(sections[idx - 1].questions.length || 1) - 1` maps a zero length to 1 - 1 = 0;
a missing previous section would throw in JS and cannot arise for an in-bounds
cursor, so the `none` branch uses the same default. -/
def handlePrevious (a : Assessment) (st : SessionState) : SessionState :=
  if st.isTimeUp then st
  else if 0 < st.currentQuestionIndex then
    { st with currentQuestionIndex := st.currentQuestionIndex - 1 }
  else if 0 < st.currentSectionIndex then
    let prevLen :=
      match a.sections.get? (st.currentSectionIndex - 1) with
      | some s => if s.questions.length = 0 then 1 else s.questions.length
      | none => 1
    { st with currentSectionIndex := st.currentSectionIndex - 1,
              currentQuestionIndex := prevLen - 1 }
  else st

/-- The translation of one server prior answer into the frontend shape
(lines 98-102): selectedChoiceIds is selectedChoices?.map(c => c.id) || [],
and textAnswer is answer.textAnswer || undefined (the empty string is falsy). -/
def restoreAnswer (answer : ServerAnswer) : AssessmentAnswer :=
  { assessmentEntryId := answer.assessmentEntryId
    selectedChoiceIds := some (match answer.selectedChoices with
      | some cs => cs.map (fun c => c.id)
      | none => [])
    textAnswer := match answer.textAnswer with
      | some t => if t = "" then none else some t
      | none => none }

/-- The restoredAnswers object built by the forEach at lines 89-103. -/
def restoreAnswers (l : List ServerAnswer) : AnswerStore :=
  l.foldl (fun s ans => storeSet s ans.assessmentEntryId (restoreAnswer ans)) []

/-- The state mutation of handleStartAssessment on collaborator success
(lines 85-109): seeds the answer store from the returned prior answers when
that list exists and is nonempty, then sets isStarted. -/
def handleStartAssessment (attempt : AssessmentAttempt) (st : SessionState) :
    SessionState :=
  match attempt.assessmentAnswers with
  | some l =>
    if l.length > 0 then
      { st with answers := restoreAnswers l, isStarted := true }
    else
      { st with isStarted := true }
  | none => { st with isStarted := true }

/-- endTime (line 62): startTime + duration * 60 * 1000. -/
def endTimeOf (startedAt : Int) (duration : Nat) : Int :=
  startedAt + (duration : Int) * 60 * 1000

/-- One run of updateTimer (lines 64-73): remaining = max(0, endTime - now),
timeRemaining = Math.ceil(remaining / 1000), and isTimeUp is latched to true
when remaining <= 0. Returns (timeRemaining, isTimeUp). -/
def updateTimer (endTime now : Int) (isTimeUp : Bool) : Nat × Bool :=
  let remaining : Int := max 0 (endTime - now)
  (((remaining.toNat) + 999) / 1000, isTimeUp || decide (remaining ≤ 0))

/-- Whether the timer effect (line 59) is active: an attempt with startedAt
exists and the assessment is timed. Once isTimeUp is true the effect body does
not run again, so a tick is a no-op then. -/
structure TimerConfig where
  armed : Bool
  endTime : Int
deriving DecidableEq, Repr

/-- Outcome of a click on the Submit button. `submitted` is the success path
of handleSubmit (router.push, the attempt now submitted server-side);
`failed` is its catch branch; `rejected` means the button was disabled so the
collaborator was never contacted. -/
inductive SubmitOutcome where
  | rejected
  | submitted
  | failed
deriving DecidableEq, Repr

/-- The Submit button (lines 622-637) combined with handleSubmit (lines
49-56): the click does nothing while the button is disabled
(isPending || isTimeUp || !allQuestionsAnswered); otherwise handleSubmit
awaits the submission collaborator. Returns the outcome and whether the
collaborator was invoked. -/
def submitClick (a : Assessment) (st : SessionState)
    (isPending : Bool) (collabSucceeds : Bool) : SubmitOutcome × Bool :=
  if isPending || st.isTimeUp || !(allQuestionsAnswered a st.answers) then
    (.rejected, false)
  else if collabSucceeds then (.submitted, true)
  else (.failed, true)

/-- The mutating events of a running session, for the monotonicity claims. -/
inductive Action where
  | tick (now : Int)
  | setAnswer (q : String) (ans : AssessmentAnswer) (r : SaveResult)
  | jump (i j : Nat)
  | next
  | previous
deriving DecidableEq, Repr

/-- One event step of the session. -/
def step (a : Assessment) (cfg : TimerConfig) (act : Action) (st : SessionState) :
    SessionState :=
  match act with
  | .tick now =>
    if cfg.armed && !st.isTimeUp then
      let r := updateTimer cfg.endTime now st.isTimeUp
      { st with timeRemaining := some r.1, isTimeUp := r.2 }
    else st
  | .setAnswer q ans r => (handleAnswerChange q ans r st).1
  | .jump i j => (navigateToQuestion st i j).1
  | .next => handleNext a st
  | .previous => handlePrevious a st

/-- A whole sequence of events. -/
def steps (a : Assessment) (cfg : TimerConfig) (acts : List Action)
    (st : SessionState) : SessionState :=
  acts.foldl (fun s act => step a cfg act s) st

/-- A sequence of answer edits, each applied through handleAnswerChange with
a successful save. -/
def applyEdits (edits : List (String × AssessmentAnswer)) (st : SessionState) :
    SessionState :=
  edits.foldl (fun s e => (handleAnswerChange e.1 e.2 .success s).1) st

/-- All question ids of the assessment, in order. -/
def allQuestionIds (a : Assessment) : List String :=
  ((a.sections.map (fun s => s.questions)).flatten).map (fun q => q.id)

/-- Append-if-new on a key list: the effect of storeSet on Object.keys. -/
def insKey (ks : List String) (q : String) : List String :=
  if q ∈ ks then ks else ks ++ [q]

/-- Sample data for witnesses and counterexamples: one section, one question. -/
def sampleQ1 : Question :=
  { id := "q1", questionType := "TEXT", question := "Describe X", weight := 1 }

def sampleAssessment1 : Assessment :=
  { name := "A1", description := none, timed := true, duration := 30
    sections := [{ id := "s1", sectionNumber := 1, title := "S1",
                   description := none, questions := [sampleQ1] }] }

/-- An answer that was touched but is incomplete: empty free text. -/
def emptyTextAnswer : AssessmentAnswer :=
  { assessmentEntryId := "q1", selectedChoiceIds := some [], textAnswer := some "" }

/-- An answer carrying empty-after-trim text together with a selected choice. -/
def mixedIncompleteAnswer : AssessmentAnswer :=
  { assessmentEntryId := "q1", selectedChoiceIds := some ["c1"], textAnswer := some "" }

/-- A complete choice answer. -/
def choiceAnswer : AssessmentAnswer :=
  { assessmentEntryId := "q1", selectedChoiceIds := some ["c1"], textAnswer := none }

/-- A complete text answer. -/
def textAnswerDone : AssessmentAnswer :=
  { assessmentEntryId := "q2", selectedChoiceIds := none, textAnswer := some "An answer" }

/-- Two sections with two and one questions, for the navigation claims. -/
def sampleAssessment2 : Assessment :=
  { name := "A2", description := none, timed := false, duration := 0
    sections :=
      [{ id := "s1", sectionNumber := 1, title := "S1", description := none
         questions := [{ id := "q1", questionType := "RADIO", question := "Q1", weight := 1 },
                       { id := "q2", questionType := "TEXT", question := "Q2", weight := 1 }] },
       { id := "s2", sectionNumber := 2, title := "S2", description := none
         questions := [{ id := "q3", questionType := "CHECKBOX", question := "Q3", weight := 2 }] }] }

/-- A state whose time is already up. -/
def expiredState : SessionState :=
  { initialState with isStarted := true, isTimeUp := true }

/-- A sample timer configuration. -/
def sampleCfg : TimerConfig := { armed := true, endTime := 1000000 }

/-- A server prior answer with one selected choice object. -/
def serverAnswerC1 : ServerAnswer :=
  { assessmentEntryId := "q1"
    selectedChoices := some [{ id := "c1", choiceText := "Choice 1",
                               choiceImageUrl := none, isCorrect := some true }]
    textAnswer := none }

/-- A server prior answer with no selectedChoices field. -/
def serverAnswerNoChoices : ServerAnswer :=
  { assessmentEntryId := "q2", selectedChoices := none, textAnswer := some "hello" }

/-- A resumed attempt carrying one prior answer. -/
def sampleAttempt : AssessmentAttempt :=
  { attemptStatus := "IN_PROGRESS", startedAt := some 0,
    assessmentAnswers := some [serverAnswerC1] }

/-- The state reached from the initial state by storing an incomplete answer
(empty free text) for the single question of the sample assessment. -/
def cexSubmitState : SessionState :=
  (handleAnswerChange "q1" emptyTextAnswer .success initialState).1

/-- The first section of sampleAssessment2, spelled out for use as a witness
to the section lookup. -/
def sampleSectionA2 : Section :=
  { id := "s1", sectionNumber := 1, title := "S1", description := none
    questions := [{ id := "q1", questionType := "RADIO", question := "Q1", weight := 1 },
                  { id := "q2", questionType := "TEXT", question := "Q2", weight := 1 }] }

end AssessmentSession

namespace AssessmentSession

/-! Helper lemmas about the answer store. -/

theorem storeSet_keys (s : AnswerStore) (k : String) (v : AssessmentAnswer) :
    (storeSet s k v).map Prod.fst = insKey (s.map Prod.fst) k := by
  unfold storeSet insKey
  by_cases h : k ∈ s.map Prod.fst
  · have hany : s.any (fun p => p.1 = k) = true := by
      rcases List.mem_map.mp h with ⟨p, hp, hpk⟩
      exact List.any_eq_true.mpr ⟨p, hp, by simp [hpk]⟩
    simp only [hany, if_true, h, if_pos]
    rw [List.map_map]
    apply List.map_congr_left
    intro p _
    by_cases hk : p.1 = k <;> simp [hk]
  · have hany : s.any (fun p => p.1 = k) = false := by
      rw [List.any_eq_false]
      intro p hp
      simp only [decide_eq_true_eq]
      intro hpk
      exact h (List.mem_map.mpr ⟨p, hp, hpk⟩)
    simp [hany, h]

theorem storeSet_get_same (s : AnswerStore) (k : String) (v : AssessmentAnswer) :
    storeGet (storeSet s k v) k = some v := by
  unfold storeSet storeGet
  by_cases hany : s.any (fun p => p.1 = k) = true
  · simp only [hany, if_true]
    induction s with
    | nil => simp at hany
    | cons p t ih =>
      by_cases hk : p.1 = k
      · simp [List.find?, hk]
      · have : t.any (fun p => p.1 = k) = true := by
          rcases List.any_eq_true.mp hany with ⟨q, hq, hqk⟩
          rcases List.mem_cons.mp hq with h1 | h1
          · exact absurd (by simpa [h1] using hqk) hk
          · exact List.any_eq_true.mpr ⟨q, h1, hqk⟩
        simpa [List.find?, hk] using ih this
  · have hfalse : s.any (fun p => p.1 = k) = false := Bool.eq_false_iff.mpr hany
    have hnone : s.find? (fun p => decide (p.1 = k)) = none := by
      rw [List.find?_eq_none]
      intro p hp
      simpa using List.any_eq_false.mp hfalse p hp
    simp only [hfalse, Bool.false_eq_true, if_false]
    rw [List.find?_append, hnone]
    simp [List.find?]

theorem storeSet_idem (s : AnswerStore) (k : String) (v : AssessmentAnswer) :
    storeSet (storeSet s k v) k v = storeSet s k v := by
  unfold storeSet
  by_cases hany : s.any (fun p => p.1 = k) = true
  · simp only [hany, if_true]
    have hany2 : (s.map (fun p => if p.1 = k then (k, v) else p)).any (fun p => p.1 = k) = true := by
      rcases List.any_eq_true.mp hany with ⟨p, hp, hpk⟩
      refine List.any_eq_true.mpr ⟨(k, v), List.mem_map.mpr ⟨p, hp, ?_⟩, by simp⟩
      simp only [decide_eq_true_eq] at hpk
      simp [hpk]
    simp only [hany2, if_true, List.map_map]
    apply List.map_congr_left
    intro p _
    by_cases hk : p.1 = k <;> simp [hk]
  · have hfalse : s.any (fun p => p.1 = k) = false := Bool.eq_false_iff.mpr hany
    simp only [hfalse, Bool.false_eq_true, if_false]
    have hany2 : (s ++ [(k, v)]).any (fun p => p.1 = k) = true := by
      refine List.any_eq_true.mpr ⟨(k, v), by simp, by simp⟩
    simp only [hany2, if_true, List.map_append]
    have hmap : s.map (fun p => if p.1 = k then (k, v) else p) = s := by
      conv_rhs => rw [← List.map_id s]
      apply List.map_congr_left
      intro p hp
      have := List.any_eq_false.mp hfalse p hp
      simp only [decide_eq_true_eq] at this
      simp [this]
    simp [hmap]

theorem insKey_nodup {ks : List String} (h : ks.Nodup) (q : String) :
    (insKey ks q).Nodup := by
  unfold insKey
  by_cases hq : q ∈ ks
  · simpa [hq]
  · simpa [hq] using List.Nodup.append h (List.nodup_singleton q) (by simpa using hq)

theorem insKey_toFinset (ks : List String) (q : String) :
    (insKey ks q).toFinset = insert q ks.toFinset := by
  unfold insKey
  by_cases hq : q ∈ ks
  · simp only [hq, if_true]
    rw [Finset.insert_eq_self.mpr (List.mem_toFinset.mpr hq)]
  · simp only [hq, if_false]
    ext x
    simp [List.mem_toFinset, or_comm]

theorem foldl_insKey_nodup {ks : List String} (h : ks.Nodup) (qs : List String) :
    (qs.foldl insKey ks).Nodup := by
  induction qs generalizing ks with
  | nil => exact h
  | cons q t ih => exact ih (insKey_nodup h q)

theorem foldl_insKey_toFinset (qs ks : List String) :
    (qs.foldl insKey ks).toFinset = ks.toFinset ∪ qs.toFinset := by
  induction qs generalizing ks with
  | nil => simp
  | cons q t ih =>
    rw [List.foldl_cons, ih, insKey_toFinset]
    ext x
    simp [List.mem_toFinset, or_comm, or_assoc, or_left_comm]

theorem foldl_storeSet_keys (edits : List (String × AssessmentAnswer)) (s : AnswerStore) :
    (edits.foldl (fun acc e => storeSet acc e.1 e.2) s).map Prod.fst
      = (edits.map Prod.fst).foldl insKey (s.map Prod.fst) := by
  induction edits generalizing s with
  | nil => rfl
  | cons e t ih =>
    rw [List.foldl_cons, List.map_cons, List.foldl_cons, ih, storeSet_keys]

theorem handleAnswerChange_state (st : SessionState) (q : String)
    (a : AssessmentAnswer) (r : SaveResult) (hT : st.isTimeUp = false) :
    (handleAnswerChange q a r st).1 = { st with answers := storeSet st.answers q a } := by
  simp [handleAnswerChange, hT]

theorem handleAnswerChange_payload (st : SessionState) (q : String)
    (a : AssessmentAnswer) (r : SaveResult) (hT : st.isTimeUp = false) :
    (handleAnswerChange q a r st).2.1 =
      (if (validAnswersOf (storeSet st.answers q a)).length > 0
       then some (validAnswersOf (storeSet st.answers q a)) else none) := by
  simp [handleAnswerChange, hT]

theorem applyEdits_eq (edits : List (String × AssessmentAnswer)) (st : SessionState)
    (hT : st.isTimeUp = false) :
    applyEdits edits st =
      { st with answers := edits.foldl (fun acc e => storeSet acc e.1 e.2) st.answers } := by
  induction edits generalizing st with
  | nil =>
    simp [applyEdits]
  | cons e t ih =>
    have h1 := handleAnswerChange_state st e.1 e.2 .success hT
    simp only [applyEdits, List.foldl_cons] at ih ⊢
    rw [h1, ih { st with answers := storeSet st.answers e.1 e.2 } (by simp [hT])]

theorem totalQuestions_foldl (l : List Section) (c : Nat) :
    l.foldl (fun acc s => acc + s.questions.length) c
      = c + ((l.map (fun s => s.questions)).flatten).length := by
  induction l generalizing c with
  | nil => simp
  | cons s t ih =>
    rw [List.foldl_cons, ih]
    simp [List.length_append]
    omega

theorem totalQuestions_eq_length (a : Assessment) :
    totalQuestions a = (allQuestionIds a).length := by
  unfold totalQuestions allQuestionIds
  rw [totalQuestions_foldl, List.length_map]
  simp

theorem string_length_zero_iff (s : String) : s.length = 0 ↔ s = "" := by
  constructor
  · intro h
    cases s with
    | mk d =>
      cases d with
      | nil => rfl
      | cons a t => simp [String.length] at h
  · intro h
    subst h
    rfl

theorem isValidAnswer_iff (ans : AssessmentAnswer) :
    isValidAnswer ans = true ↔ CompleteSpec ans := by
  unfold isValidAnswer CompleteSpec
  cases hT : ans.textAnswer with
  | some t =>
    simp only [decide_eq_true_eq]
    constructor
    · intro h hE
      rw [← string_length_zero_iff] at hE
      omega
    · intro h
      have : ¬ (jsTrim t).length = 0 := fun hz => h ((string_length_zero_iff _).mp hz)
      omega
  | none =>
    cases hC : ans.selectedChoiceIds with
    | some ids =>
      simp only [decide_eq_true_eq, Option.getD_some]
      constructor
      · intro h hE
        subst hE
        simp at h
      · intro h
        cases ids with
        | nil => exact absurd rfl h
        | cons x xs => simp
    | none => simp

theorem updateTimer_def (e n : Int) (b : Bool) :
    updateTimer e n b
      = (((max 0 (e - n)).toNat + 999) / 1000, b || decide (max 0 (e - n) ≤ 0)) := rfl

theorem step_timeUp_mono (a : Assessment) (cfg : TimerConfig) (act : Action)
    (st : SessionState) (h : st.isTimeUp = true) :
    (step a cfg act st).isTimeUp = true := by
  cases act with
  | tick now => simp [step, h]
  | setAnswer q ans r => simp [step, handleAnswerChange, h]
  | jump i j => simp [step, navigateToQuestion, h]
  | next =>
    unfold step handleNext
    cases a.sections.get? st.currentSectionIndex <;> simp [h]
  | previous => simp [step, handlePrevious, h]

theorem steps_timeUp_mono (a : Assessment) (cfg : TimerConfig) (acts : List Action)
    (st : SessionState) (h : st.isTimeUp = true) :
    (steps a cfg acts st).isTimeUp = true := by
  induction acts generalizing st with
  | nil => exact h
  | cons act t ih =>
    unfold steps at ih ⊢
    rw [List.foldl_cons]
    exact ih (step a cfg act st) (step_timeUp_mono a cfg act st h)

/-- Claim C4: the clock computes endTime = startedAt + duration minutes in
milliseconds, each tick exposes remainingSeconds = ceil(max(0, endTime - now)
divided by 1000) (characterized below as the least number of whole seconds
covering the remaining milliseconds), and isTimeUp is latched exactly when the
end time has passed; in particular a session reconstructed at
startedAt + 31 minutes for a 30-minute duration fires expiry on its very
first tick. -/
theorem c4_expiry_clock (startedAt : Int) (duration : Nat) (now : Int) (isTimeUp : Bool) :
    endTimeOf startedAt duration = startedAt + (duration : Int) * 60 * 1000
    ∧ (endTimeOf startedAt duration - now ≤ 0 →
        (updateTimer (endTimeOf startedAt duration) now isTimeUp).1 = 0)
    ∧ (0 ≤ endTimeOf startedAt duration - now →
        (endTimeOf startedAt duration - now : Int)
            ≤ 1000 * ((updateTimer (endTimeOf startedAt duration) now isTimeUp).1 : Int)
          ∧ 1000 * ((updateTimer (endTimeOf startedAt duration) now isTimeUp).1 : Int)
            < (endTimeOf startedAt duration - now) + 1000)
    ∧ ((updateTimer (endTimeOf startedAt duration) now isTimeUp).2 = true
        ↔ (isTimeUp = true ∨ endTimeOf startedAt duration ≤ now))
    ∧ updateTimer (endTimeOf startedAt 30) (startedAt + 31 * 60 * 1000) false = (0, true) := by
  refine ⟨rfl, ?_, ?_, ?_, ?_⟩
  · intro h
    unfold updateTimer
    have hm : max 0 (endTimeOf startedAt duration - now) = 0 := by omega
    simp [hm]
  · intro h
    unfold updateTimer
    have hm : max 0 (endTimeOf startedAt duration - now) = endTimeOf startedAt duration - now := by
      omega
    simp only [hm]
    omega
  · unfold updateTimer
    have hm : (max 0 (endTimeOf startedAt duration - now) ≤ 0)
        ↔ endTimeOf startedAt duration ≤ now := by omega
    simp [hm]
  · rw [updateTimer_def]
    have hm : max 0 (endTimeOf startedAt 30 - (startedAt + 31 * 60 * 1000)) = 0 := by
      unfold endTimeOf
      omega
    rw [hm]
    rfl

/-- Claim C10: for an answer whose textAnswer field is defined and non-null
(including the empty string), the auto-save filter decides completeness solely
from the trimmed text and ignores selectedChoiceIds; an answer carrying
empty-after-trim text together with a nonempty choice list is classified
incomplete and excluded from the persisted set. -/
theorem c10_text_branch_dominates (ans : AssessmentAnswer) (t : String)
    (ids : Option (List String)) (h : ans.textAnswer = some t) :
    (isValidAnswer ans = true ↔ (jsTrim t).length > 0)
    ∧ isValidAnswer { ans with selectedChoiceIds := ids } = isValidAnswer ans
    ∧ isValidAnswer mixedIncompleteAnswer = false
    ∧ validAnswersOf [("q1", mixedIncompleteAnswer)] = [] := by
  refine ⟨?_, ?_, rfl, rfl⟩
  · unfold isValidAnswer
    rw [h]
    simp
  · unfold isValidAnswer
    simp [h]

/-- Claim C9: a failing saveAnswers call during an answer edit is swallowed:
the resulting state is identical to the one after a successful save, the
store holds the new answer, no session state is rolled back, and a subsequent
edit is still accepted. -/
theorem c9_save_failure_swallowed (st : SessionState) (q : String)
    (a : AssessmentAnswer) (hT : st.isTimeUp = false) :
    handleAnswerChange q a .failure st = handleAnswerChange q a .success st
    ∧ storeGet (handleAnswerChange q a .failure st).1.answers q = some a
    ∧ (handleAnswerChange q a .failure st).1.isTimeUp = false
    ∧ (handleAnswerChange q a .failure st).1.currentSectionIndex = st.currentSectionIndex
    ∧ (handleAnswerChange q a .failure st).1.currentQuestionIndex = st.currentQuestionIndex
    ∧ (∀ q2 a2 r2, storeGet
        ((handleAnswerChange q2 a2 r2 (handleAnswerChange q a .failure st).1).1).answers q2
          = some a2) := by
  have h1 := handleAnswerChange_state st q a .failure hT
  refine ⟨by simp [handleAnswerChange, hT], ?_, ?_, ?_, ?_, ?_⟩
  · rw [h1]
    exact storeSet_get_same _ _ _
  · rw [h1]
    exact hT
  · rw [h1]
  · rw [h1]
  · intro q2 a2 r2
    have hT2 : (handleAnswerChange q a .failure st).1.isTimeUp = false := by
      rw [h1]; exact hT
    rw [handleAnswerChange_state _ q2 a2 r2 hT2]
    exact storeSet_get_same _ _ _

/-- Claim C8: seeding from the server "selected choice objects" shape
translates each prior answer into the internal shape keyed by question id: a
prior answer with selectedChoices objects seeds exactly their ids (so one
choice object with id c1 seeds the list [c1]), and a prior answer with no
selectedChoices seeds an empty id list. -/
theorem c8_resume_seed_translation (st : SessionState) (attempt : AssessmentAttempt)
    (sa : ServerAnswer) :
    (∀ cs, sa.selectedChoices = some cs →
       (restoreAnswer sa).selectedChoiceIds = some (cs.map (fun c => c.id)))
    ∧ (sa.selectedChoices = none → (restoreAnswer sa).selectedChoiceIds = some [])
    ∧ (attempt.assessmentAnswers = some [sa] →
        storeGet (handleStartAssessment attempt st).answers sa.assessmentEntryId
          = some (restoreAnswer sa))
    ∧ (restoreAnswer serverAnswerC1).selectedChoiceIds = some ["c1"]
    ∧ (restoreAnswer serverAnswerNoChoices).selectedChoiceIds = some [] := by
  refine ⟨?_, ?_, ?_, rfl, rfl⟩
  · intro cs h
    simp [restoreAnswer, h]
  · intro h
    simp [restoreAnswer, h]
  · intro h
    have hstore : restoreAnswers [sa]
        = [(sa.assessmentEntryId, restoreAnswer sa)] := by
      simp [restoreAnswers, storeSet]
    simp [handleStartAssessment, h, hstore, storeGet, List.find?]

/-- Claim C6 counterexample: jumpTo does not clamp out-of-range indices; from
the initial state of the one-section, one-question sample assessment, jumping
to section 5, question 7 leaves the cursor outside the valid index range. -/
theorem c6_no_clamp_cex :
    (navigateToQuestion initialState 5 7).1.currentSectionIndex = 5
    ∧ (navigateToQuestion initialState 5 7).1.currentQuestionIndex = 7
    ∧ sampleAssessment1.sections.length = 1
    ∧ ¬ ((navigateToQuestion initialState 5 7).1.currentSectionIndex
          < sampleAssessment1.sections.length) := by
  refine ⟨rfl, rfl, rfl, by decide⟩

/-- Claim C6 amended: jumpTo stores the supplied indices verbatim without any
bounds check, so the cursor stays within [0, sectionCount) x
[0, questionCountInSection) exactly when callers pass in-range indices;
in-range arguments always yield an in-range cursor. -/
theorem c6_jump_stores_verbatim (st : SessionState) (i j : Nat)
    (hT : st.isTimeUp = false) :
    (navigateToQuestion st i j).1.currentSectionIndex = i
    ∧ (navigateToQuestion st i j).1.currentQuestionIndex = j
    ∧ (navigateToQuestion st i j).2 = none
    ∧ (navigateToQuestion st i j).1.answers = st.answers
    ∧ (∀ n m : Nat, i < n → j < m →
        (navigateToQuestion st i j).1.currentSectionIndex < n
        ∧ (navigateToQuestion st i j).1.currentQuestionIndex < m) := by
  have h1 : navigateToQuestion st i j
      = ({ st with currentSectionIndex := i, currentQuestionIndex := j }, none) := by
    simp [navigateToQuestion, hT]
  rw [h1]
  exact ⟨rfl, rfl, rfl, rfl, fun n m hn hm => ⟨hn, hm⟩⟩

/-- Claim C6 amended witness: in-range jump from the initial state. -/
theorem c6_jump_stores_verbatim_witness :
    (navigateToQuestion initialState 0 0).1.currentSectionIndex = 0
    ∧ (navigateToQuestion initialState 0 0).1.currentQuestionIndex = 0 := by
  have h := c6_jump_stores_verbatim initialState 0 0 rfl
  exact ⟨h.1, h.2.1⟩

/-- Claim C4 witness: a 30-minute window read 31 minutes after its start
shows zero remaining seconds and fires expiry on the first tick. -/
theorem c4_expiry_clock_witness :
    (updateTimer (endTimeOf 0 30) (31 * 60 * 1000) false).1 = 0
    ∧ ((updateTimer (endTimeOf 0 30) (31 * 60 * 1000) false).2 = true
        ↔ (false = true ∨ endTimeOf 0 30 ≤ 31 * 60 * 1000)) := by
  have h := c4_expiry_clock 0 30 (31 * 60 * 1000) false
  exact ⟨h.2.1 (by decide), h.2.2.2.1⟩

/-- Claim C10 witness: the empty-text answer with a selected choice. -/
theorem c10_text_branch_dominates_witness :
    (isValidAnswer emptyTextAnswer = true ↔ (jsTrim "").length > 0)
    ∧ isValidAnswer { emptyTextAnswer with selectedChoiceIds := some ["c1"] }
        = isValidAnswer emptyTextAnswer := by
  have h := c10_text_branch_dominates emptyTextAnswer "" (some ["c1"]) rfl
  exact ⟨h.1, h.2.1⟩

/-- Claim C9 witness: a failing save on the first edit of the session. -/
theorem c9_save_failure_swallowed_witness :
    handleAnswerChange "q1" choiceAnswer .failure initialState
      = handleAnswerChange "q1" choiceAnswer .success initialState
    ∧ storeGet (handleAnswerChange "q1" choiceAnswer .failure initialState).1.answers "q1"
      = some choiceAnswer := by
  have h := c9_save_failure_swallowed initialState "q1" choiceAnswer rfl
  exact ⟨h.1, h.2.1⟩

/-- Claim C8 witness: resuming with one prior answer holding choice object c1. -/
theorem c8_resume_seed_translation_witness :
    storeGet (handleStartAssessment sampleAttempt initialState).answers "q1"
      = some (restoreAnswer serverAnswerC1)
    ∧ (restoreAnswer serverAnswerC1).selectedChoiceIds = some ["c1"] := by
  have h := c8_resume_seed_translation initialState sampleAttempt serverAnswerC1
  exact ⟨h.2.2.1 rfl, h.2.2.2.1⟩

/-- Claim C5: once timeUp is true it stays true under any further sequence of
ticks and attempted mutations, and an answer edit or navigation attempted
after expiry leaves the whole session state (store and cursor) unchanged as a
no-op, the blocked edit and jump carrying their user-visible warning toasts
rather than an error. -/
theorem c5_expiry_latch (a : Assessment) (cfg : TimerConfig) (st : SessionState)
    (h : st.isTimeUp = true) :
    (∀ acts : List Action, (steps a cfg acts st).isTimeUp = true)
    ∧ (∀ q ans r, handleAnswerChange q ans r st
        = (st, none, some (.warning "Time is up! You can no longer modify your answers.")))
    ∧ (∀ i j, navigateToQuestion st i j
        = (st, some (.warning "Time is up! Navigation is no longer available.")))
    ∧ handleNext a st = st
    ∧ handlePrevious a st = st := by
  refine ⟨fun acts => steps_timeUp_mono a cfg acts st h, ?_, ?_, ?_, ?_⟩
  · intro q ans r
    simp [handleAnswerChange, h]
  · intro i j
    simp [navigateToQuestion, h]
  · unfold handleNext
    cases a.sections.get? st.currentSectionIndex <;> simp [h]
  · simp [handlePrevious, h]

/-- Claim C5 witness: an expired state under a concrete event sequence. -/
theorem c5_expiry_latch_witness :
    (steps sampleAssessment1 sampleCfg
        [.tick 0, .next, .setAnswer "q1" choiceAnswer .success] expiredState).isTimeUp = true
    ∧ handleAnswerChange "q1" choiceAnswer .success expiredState
        = (expiredState, none,
           some (.warning "Time is up! You can no longer modify your answers."))
    ∧ navigateToQuestion expiredState 0 0
        = (expiredState, some (.warning "Time is up! Navigation is no longer available."))
    ∧ handleNext sampleAssessment1 expiredState = expiredState
    ∧ handlePrevious sampleAssessment1 expiredState = expiredState := by
  have h := c5_expiry_latch sampleAssessment1 sampleCfg expiredState rfl
  exact ⟨h.1 _, h.2.1 "q1" choiceAnswer .success, h.2.2.1 0 0, h.2.2.2.1, h.2.2.2.2⟩

/-- Claim C7: next advances within the current section when not at its last
question, else moves to the first question of the next section if one exists,
else is a no-op; previous is symmetric, moving to the last question of the
previous section at a section boundary; previous at (0,0) and next at the
last question of the last section leave the cursor unchanged. -/
theorem c7_next_previous (a : Assessment) (st : SessionState) (sec : Section)
    (hT : st.isTimeUp = false)
    (hsec : a.sections.get? st.currentSectionIndex = some sec) :
    (st.currentQuestionIndex + 1 < sec.questions.length →
      handleNext a st = { st with currentQuestionIndex := st.currentQuestionIndex + 1 })
    ∧ (st.currentQuestionIndex + 1 = sec.questions.length →
        st.currentSectionIndex + 1 < a.sections.length →
        handleNext a st = { st with currentSectionIndex := st.currentSectionIndex + 1,
                                    currentQuestionIndex := 0 })
    ∧ (st.currentQuestionIndex + 1 = sec.questions.length →
        st.currentSectionIndex + 1 = a.sections.length →
        handleNext a st = st)
    ∧ (0 < st.currentQuestionIndex →
        handlePrevious a st = { st with currentQuestionIndex := st.currentQuestionIndex - 1 })
    ∧ (∀ psec, st.currentQuestionIndex = 0 → 0 < st.currentSectionIndex →
        a.sections.get? (st.currentSectionIndex - 1) = some psec →
        psec.questions ≠ [] →
        handlePrevious a st
          = { st with currentSectionIndex := st.currentSectionIndex - 1,
                      currentQuestionIndex := psec.questions.length - 1 })
    ∧ (st.currentQuestionIndex = 0 → st.currentSectionIndex = 0 →
        handlePrevious a st = st) := by
  refine ⟨?_, ?_, ?_, ?_, ?_, ?_⟩
  · intro hq
    have h1 : st.currentQuestionIndex < sec.questions.length - 1 := by omega
    unfold handleNext
    rw [hsec]
    simp [hT, h1]
  · intro hq hs
    have h1 : ¬ st.currentQuestionIndex < sec.questions.length - 1 := by omega
    have h2 : st.currentSectionIndex < a.sections.length - 1 := by omega
    unfold handleNext
    rw [hsec]
    simp [hT, h1, h2]
  · intro hq hs
    have h1 : ¬ st.currentQuestionIndex < sec.questions.length - 1 := by omega
    have h2 : ¬ st.currentSectionIndex < a.sections.length - 1 := by omega
    unfold handleNext
    rw [hsec]
    simp [hT, h1, h2]
  · intro hq
    unfold handlePrevious
    simp [hT, hq]
  · intro psec hq0 hs hpsec hne
    have hpsec2 : a.sections[st.currentSectionIndex - 1]? = some psec := by
      rw [← List.get?_eq_getElem?]
      exact hpsec
    unfold handlePrevious
    rw [hq0]
    simp [hT, hs, hpsec2, hne]
  · intro hq0 hs0
    unfold handlePrevious
    rw [hq0, hs0]
    simp [hT]

/-- Claim C7 witness: the two-section sample assessment at position (0,0). -/
theorem c7_next_previous_witness :
    handleNext sampleAssessment2 initialState
      = { initialState with currentQuestionIndex := 1 }
    ∧ handlePrevious sampleAssessment2 initialState = initialState := by
  have h := c7_next_previous sampleAssessment2 initialState sampleSectionA2 rfl rfl
  exact ⟨h.1 (by decide), h.2.2.2.2.2 rfl rfl⟩

/-- Claim C3: an answer edit not blocked by timeUp fully replaces the store
entry for that question; the payload sent to saveAnswers is exactly the
subset of all currently stored answers that are complete (complete: trimmed
free text nonempty when the answer carries text, otherwise a nonempty
selected-choice set), with no call made when that subset is empty; and
repeating the same edit leaves the store and the persisted subset unchanged. -/
theorem c3_replace_and_persist_subset (st : SessionState) (q : String)
    (a : AssessmentAnswer) (r : SaveResult) (hT : st.isTimeUp = false) :
    storeGet (handleAnswerChange q a r st).1.answers q = some a
    ∧ (∀ l, (handleAnswerChange q a r st).2.1 = some l →
        l = validAnswersOf (handleAnswerChange q a r st).1.answers)
    ∧ ((handleAnswerChange q a r st).2.1 = none →
        validAnswersOf (handleAnswerChange q a r st).1.answers = [])
    ∧ (∀ x, x ∈ validAnswersOf (handleAnswerChange q a r st).1.answers
        ↔ (x ∈ ((handleAnswerChange q a r st).1.answers).map Prod.snd ∧ CompleteSpec x))
    ∧ (handleAnswerChange q a r (handleAnswerChange q a r st).1).1.answers
        = (handleAnswerChange q a r st).1.answers
    ∧ (handleAnswerChange q a r (handleAnswerChange q a r st).1).2.1
        = (handleAnswerChange q a r st).2.1 := by
  have hstate := handleAnswerChange_state st q a r hT
  have hpay := handleAnswerChange_payload st q a r hT
  have hT1 : (handleAnswerChange q a r st).1.isTimeUp = false := by
    rw [hstate]
    exact hT
  have hans1 : (handleAnswerChange q a r st).1.answers = storeSet st.answers q a := by
    rw [hstate]
  refine ⟨?_, ?_, ?_, ?_, ?_, ?_⟩
  · rw [hans1]
    exact storeSet_get_same _ _ _
  · intro l hl
    rw [hpay] at hl
    rw [hans1]
    by_cases hlen : (validAnswersOf (storeSet st.answers q a)).length > 0
    · simp only [hlen, if_true] at hl
      exact (Option.some.injEq _ _ ▸ hl).symm
    · simp [hlen] at hl
  · intro hl
    rw [hpay] at hl
    rw [hans1]
    by_cases hlen : (validAnswersOf (storeSet st.answers q a)).length > 0
    · simp [hlen] at hl
    · have : (validAnswersOf (storeSet st.answers q a)).length = 0 := by omega
      exact List.length_eq_zero.mp this
  · intro x
    unfold validAnswersOf
    rw [List.mem_filter]
    exact and_congr_right (fun _ => isValidAnswer_iff x)
  · rw [handleAnswerChange_state _ q a r hT1, hans1]
    exact storeSet_idem _ _ _
  · rw [handleAnswerChange_payload _ q a r hT1, hpay, hans1, storeSet_idem]

/-- Claim C3 witness: storing a complete choice answer twice from the initial
state. -/
theorem c3_replace_and_persist_subset_witness :
    storeGet (handleAnswerChange "q1" choiceAnswer .success initialState).1.answers "q1"
      = some choiceAnswer
    ∧ (handleAnswerChange "q1" choiceAnswer .success
        ((handleAnswerChange "q1" choiceAnswer .success initialState).1)).2.1
      = (handleAnswerChange "q1" choiceAnswer .success initialState).2.1 := by
  have h := c3_replace_and_persist_subset initialState "q1" choiceAnswer .success rfl
  exact ⟨h.1, h.2.2.2.2.2⟩

/-- Claim C1 counterexample: the submit gate counts raw stored answers, not
complete ones. With an incomplete (empty-text) answer stored for the only
question, the Submit click proceeds and the submission collaborator is
invoked, although the stored answer fails the completeness rule. -/
theorem c1_gate_ignores_completeness_cex :
    submitClick sampleAssessment1 cexSubmitState false true = (.submitted, true)
    ∧ isValidAnswer emptyTextAnswer = false
    ∧ storeGet cexSubmitState.answers "q1" = some emptyTextAnswer := by
  refine ⟨by decide, by decide, by decide⟩

/-- Claim C1 amended: submit() succeeds only when every question across every
section has a stored answer (the raw allQuestionsAnswered count gate, which
does not check completeness) and timeUp is false; a submit() call made before
that returns a rejection without invoking the external submission
collaborator, and on collaborator success the session transitions to
SUBMITTED. -/
theorem c1_submit_gate (a : Assessment) (st : SessionState)
    (isPending collab : Bool) :
    ((submitClick a st isPending collab).1 = .submitted →
      allQuestionsAnswered a st.answers = true ∧ st.isTimeUp = false ∧ collab = true)
    ∧ (allQuestionsAnswered a st.answers = false ∨ st.isTimeUp = true →
        submitClick a st isPending collab = (.rejected, false))
    ∧ (isPending = false → st.isTimeUp = false → allQuestionsAnswered a st.answers = true →
        collab = true → submitClick a st isPending collab = (.submitted, true))
    ∧ (isPending = false → st.isTimeUp = false → allQuestionsAnswered a st.answers = true →
        collab = false → submitClick a st isPending collab = (.failed, true)) := by
  unfold submitClick
  cases hA : allQuestionsAnswered a st.answers <;>
    cases hT : st.isTimeUp <;>
      cases isPending <;>
        cases collab <;>
          simp [hA, hT]

/-- Claim C1 amended witness: a fully answered state submits; an expired
state is rejected without contacting the collaborator. -/
theorem c1_submit_gate_witness :
    submitClick sampleAssessment1
        ((handleAnswerChange "q1" choiceAnswer .success initialState).1) false true
      = (.submitted, true)
    ∧ submitClick sampleAssessment1 expiredState false true = (.rejected, false) := by
  have h := c1_submit_gate sampleAssessment1
    ((handleAnswerChange "q1" choiceAnswer .success initialState).1) false true
  have h2 := c1_submit_gate sampleAssessment1 expiredState false true
  exact ⟨h.2.2.1 rfl rfl (by decide) rfl, h2.2.1 (Or.inr rfl)⟩

/-- Claim C2 counterexample: progress counts raw stored answers, not complete
ones. One setAnswer call with an incomplete (empty-text) answer makes
answeredCount 1 although no stored answer is complete. -/
theorem c2_raw_count_cex :
    answeredQuestions (applyEdits [("q1", emptyTextAnswer)] initialState).answers = 1
    ∧ (((applyEdits [("q1", emptyTextAnswer)] initialState).answers.filter
          (fun p => isValidAnswer p.2)).map Prod.fst).length = 0 := by
  refine ⟨by decide, by decide⟩

/-- Claim C2 amended: for every sequence of setAnswer calls starting from the
initial state, progress.answeredCount equals the number of distinct question
ids set, regardless of whether their latest answer is complete; and it never
exceeds totalCount provided the ids come from the assessment's questions and
the assessment's question ids are distinct. -/
theorem c2_progress_raw_count (a : Assessment)
    (edits : List (String × AssessmentAnswer)) :
    answeredQuestions (applyEdits edits initialState).answers
      = (edits.map Prod.fst).toFinset.card
    ∧ ((∀ q ∈ edits.map Prod.fst, q ∈ allQuestionIds a) →
        (allQuestionIds a).Nodup →
        answeredQuestions (applyEdits edits initialState).answers ≤ totalQuestions a) := by
  have hT : initialState.isTimeUp = false := rfl
  have hkeys : ((applyEdits edits initialState).answers).map Prod.fst
      = (edits.map Prod.fst).foldl insKey [] := by
    rw [applyEdits_eq edits initialState hT]
    show (edits.foldl (fun acc e => storeSet acc e.1 e.2) initialState.answers).map Prod.fst = _
    rw [foldl_storeSet_keys]
    rfl
  have hnodup : (((applyEdits edits initialState).answers).map Prod.fst).Nodup := by
    rw [hkeys]
    exact foldl_insKey_nodup List.nodup_nil _
  have hfin : (((applyEdits edits initialState).answers).map Prod.fst).toFinset
      = (edits.map Prod.fst).toFinset := by
    rw [hkeys, foldl_insKey_toFinset]
    simp
  have hlen : answeredQuestions (applyEdits edits initialState).answers
      = (edits.map Prod.fst).toFinset.card := by
    unfold answeredQuestions
    rw [← List.length_map ((applyEdits edits initialState).answers) Prod.fst,
        ← List.toFinset_card_of_nodup hnodup, hfin]
  refine ⟨hlen, fun hmem hnd => ?_⟩
  rw [hlen]
  calc (edits.map Prod.fst).toFinset.card
      ≤ (allQuestionIds a).toFinset.card :=
        Finset.card_le_card
          (fun x hx => List.mem_toFinset.mpr (hmem x (List.mem_toFinset.mp hx)))
    _ = (allQuestionIds a).length := List.toFinset_card_of_nodup hnd
    _ = totalQuestions a := (totalQuestions_eq_length a).symm

/-- Claim C2 amended witness: one complete edit on the sample assessment. -/
theorem c2_progress_raw_count_witness :
    answeredQuestions (applyEdits [("q1", choiceAnswer)] initialState).answers
      = ([("q1", choiceAnswer)].map Prod.fst).toFinset.card
    ∧ answeredQuestions (applyEdits [("q1", choiceAnswer)] initialState).answers
      ≤ totalQuestions sampleAssessment1 := by
  have h := c2_progress_raw_count sampleAssessment1 [("q1", choiceAnswer)]
  exact ⟨h.1, h.2 (by decide) (by decide)⟩

end AssessmentSession
